import Mathlib

/-!
Shallow embedding of `src/preprocessing/mushroom_data_loader.py`
(class `MuShroomDataLoader`): file discovery, format-dispatch loading
(JSON / JSONL / CSV / ZIP-of-{JSON,JSONL}) and dataset structure analysis,
together with theorems settling the specification claims about it.

Python values floating through the loader are modelled by `PyObj`;
file contents on disk are modelled by the outcome each parser would
produce on them (`FileData`), since the loaders only observe files
through `json.load`, line iteration, `pd.read_csv` and `zipfile.ZipFile`.
-/

/-- A Python value as it appears in the loader: the JSON scalar/composite
values produced by `json.load(s)`, plus pandas DataFrames produced by
`pd.read_csv` (modelled by their column list and row list). -/
inductive PyObj where
  | none
  | bool (b : Bool)
  | int (n : Int)
  | str (s : String)
  | list (xs : List PyObj)
  | dict (kvs : List (String × PyObj))
  | frame (cols : List String) (rows : List (List PyObj))

/-- `type(value).__name__` as used when populating `data_schema`
(line 356 of the source). -/
def typeName : PyObj → String
  | .none => "NoneType"
  | .bool _ => "bool"
  | .int _ => "int"
  | .str _ => "str"
  | .list _ => "list"
  | .dict _ => "dict"
  | .frame _ _ => "DataFrame"

/-- One line of a `.jsonl` file as the loader sees it: blank after
`strip()`, a line parsing to a JSON value, or a line on which
`json.loads` raises. -/
inductive JsonlLine where
  | blank
  | record (v : PyObj)
  | bad

/-- `data[:max_records] if isinstance(data, list) and max_records is not None`
(lines 105-106 and 196-197 of the source). -/
def truncateIfList (data : PyObj) (max_records : Option Nat) : PyObj :=
  match data, max_records with
  | .list xs, some n => .list (xs.take n)
  | d, _ => d

/-- `load_json_file` (lines 90-113): `parsed` is the outcome of
`json.load` on the file (`none` models an open/parse exception, which the
function catches, returning `None`). -/
def load_json_file (parsed : Option PyObj) (max_records : Option Nat) : Option PyObj :=
  match parsed with
  | some data => some (truncateIfList data max_records)
  | Option.none => Option.none

/-- `max_records is not None and i >= max_records` (line 130). -/
def budgetReached (i : Nat) (max_records : Option Nat) : Bool :=
  match max_records with
  | some n => decide (n ≤ i)
  | Option.none => false

/-- The `for i, line in enumerate(f)` loop of `load_jsonl_file`
(lines 129-135): `i` is the current 0-based line index; the loop breaks
once `max_records is not None and i >= max_records`; a blank line is
skipped (but still advances `i`); a malformed line raises, which the
enclosing handler turns into `None` for the whole file. -/
def jsonlGo : List JsonlLine → Nat → Option Nat → Option (List PyObj)
  | [], _, _ => some []
  | l :: ls, i, max_records =>
    if budgetReached i max_records then some []
    else
      match l with
      | .blank => jsonlGo ls (i + 1) max_records
      | .record v => (jsonlGo ls (i + 1) max_records).map (fun rest => v :: rest)
      | .bad => Option.none

/-- `load_jsonl_file` (lines 115-142): `lines` is the file's line
sequence (`none` models an open failure). Any exception inside the loop
makes the whole call return `None`. -/
def load_jsonl_file (lines : Option (List JsonlLine)) (max_records : Option Nat) :
    Option PyObj :=
  match lines with
  | some ls => (jsonlGo ls 0 max_records).map PyObj.list
  | Option.none => Option.none

/-- `load_csv_file` (lines 144-166): `parsed` is the header/rows outcome
of `pd.read_csv` (`none` models a parse exception); `nrows=max_records`
caps the number of data rows read. -/
def load_csv_file (parsed : Option (List String × List (List PyObj)))
    (max_records : Option Nat) : Option PyObj :=
  match parsed with
  | some (cols, rows) =>
    some (.frame cols (match max_records with | some n => rows.take n | Option.none => rows))
  | Option.none => Option.none

/-- The content of one ZIP member, keyed by the branch
`os.path.splitext(zip_filename)[1].lower()` selects in
`extract_and_load_zip` (lines 190-208): a `.json` member carries its
`json.load` outcome, a `.jsonl` member carries its line sequence, and
`other` stands for any extension outside those two. -/
inductive ZipContent where
  | json (parsed : Option PyObj)
  | jsonl (lines : List JsonlLine)
  | other

structure ZipMember where
  name : String
  content : ZipContent

/-- `zip_filename.endswith('/')` (line 187); for the one-character
suffix this is exactly "the last character is a slash". -/
def isDirEntry (name : String) : Bool :=
  match name.data.getLast? with
  | some c => decide (c = '/')
  | Option.none => false

/-- Processing of one ZIP member (lines 186-214): directory entries
(names ending in a slash) are skipped; a `.json` member is parsed and
list-truncated; a `.jsonl` member is read with the same line loop as the
standalone loader; other extensions produce nothing; any exception is
caught per member, leaving that member absent (`none`). -/
def loadZipMember (m : ZipMember) (max_records : Option Nat) : Option PyObj :=
  if isDirEntry m.name then Option.none
  else
    match m.content with
    | .json (some d) => some (truncateIfList d max_records)
    | .json Option.none => Option.none
    | .jsonl lines => (jsonlGo lines 0 max_records).map PyObj.list
    | .other => Option.none

/-- The `zip_contents` mapping built over the member list, in member
order, holding an entry exactly for each member whose load produced a
value. -/
def zipContents (ms : List ZipMember) (max_records : Option Nat) :
    List (String × PyObj) :=
  ms.filterMap fun m => (loadZipMember m max_records).map fun v => (m.name, v)

/-- `extract_and_load_zip` (lines 168-221): `archive` is the outcome of
opening the ZIP (`none` models `zipfile.ZipFile` raising, caught and
turned into `None`); on success the member mapping is returned even if
every member failed to parse. -/
def extract_and_load_zip (archive : Option (List ZipMember)) (max_records : Option Nat) :
    Option PyObj :=
  match archive with
  | some ms => some (.dict (zipContents ms max_records))
  | Option.none => Option.none

/-- The on-disk content of one file, abstracted as the outcome each of the
four parsers would produce on it. -/
structure FileData where
  jsonParse : Option PyObj
  jsonlLines : Option (List JsonlLine)
  csvParse : Option (List String × List (List PyObj))
  zipOpen : Option (List ZipMember)

/-- The `file_info` descriptor built during discovery (lines 69-75):
relative name, full path, size, lower-cased extension and owning dataset,
plus the file's content oracle. -/
structure FileInfo where
  name : String
  full_path : String
  size_bytes : Nat
  extension : String
  dataset : String
  data : FileData

/-- `load_file` (lines 223-260): files below 50 bytes are skipped before
any dispatch; otherwise the lower-cased extension selects the parser and
the result is `(data is not None, data)`; unsupported extensions give
`(False, None)`. -/
def load_file (fi : FileInfo) (max_records : Option Nat) : Bool × Option PyObj :=
  if fi.size_bytes < 50 then (false, Option.none)
  else if fi.extension = ".json" then
    let d := load_json_file fi.data.jsonParse max_records
    (d.isSome, d)
  else if fi.extension = ".jsonl" then
    let d := load_jsonl_file fi.data.jsonlLines max_records
    (d.isSome, d)
  else if fi.extension = ".csv" then
    let d := load_csv_file fi.data.csvParse max_records
    (d.isSome, d)
  else if fi.extension = ".zip" then
    let d := extract_and_load_zip fi.data.zipOpen max_records
    (d.isSome, d)
  else (false, Option.none)

/-- One entry of `base_paths`, together with what the directory walk for
it would do: `pathExists` is the `os.path.exists` check, `entries` are
the descriptors the walk yields before any failure, and `walkError`
records whether `os.walk`/`os.path.getsize` raises after those entries
were collected. -/
structure DatasetSource where
  name : String
  pathExists : Bool
  entries : List FileInfo
  walkError : Bool

/-- Discovery result for one dataset (lines 49-85): a missing path gives
`[]`; an exception during the walk is caught and the dataset's list is
assigned `[]` (the partially collected `files` list is discarded, line
85); otherwise the walked entries are kept. -/
def discoverDataset (d : DatasetSource) : List FileInfo :=
  if d.pathExists = false then []
  else if d.walkError = true then []
  else d.entries

/-- `discover_files` (lines 38-88): each dataset of `base_paths` is
processed independently, in order. -/
def discover_files (sources : List DatasetSource) : List (String × List FileInfo) :=
  sources.map fun d => (d.name, discoverDataset d)

/-- `load_all_datasets` (lines 262-300): for each dataset, each
descriptor is loaded and, on success, its data is stored under the
descriptor's relative name (the payload's timestamp and descriptor copy
are dropped here; only the `data` field is observed by the analysis). -/
def load_all_datasets (registry : List (String × List FileInfo)) (max_records : Option Nat) :
    List (String × List (String × PyObj)) :=
  registry.map fun ds =>
    (ds.1, ds.2.filterMap fun fi =>
      match load_file fi max_records with
      | (true, some d) => some (fi.name, d)
      | _ => Option.none)

/-- `set(data[0].keys())` for a first record that is a mapping. -/
def keysOf (kvs : List (String × PyObj)) : Finset String :=
  (kvs.map Prod.fst).toFinset

/-- The key sets one file's payload appends to `all_keys_sets`
(lines 341-372): a list payload contributes its first element's keys when
that element is a mapping; a mapping payload (ZIP contents or a JSON
object) contributes, per member value, the keys of the member's first
element when the member is a non-empty list whose first element is a
mapping; a DataFrame contributes its column set; anything else nothing. -/
def fileKeySets : PyObj → List (Finset String)
  | .list (PyObj.dict kvs :: _) => [keysOf kvs]
  | .dict subs =>
    subs.filterMap fun s =>
      match s.2 with
      | PyObj.list (PyObj.dict kvs :: _) => some (keysOf kvs)
      | _ => Option.none
  | .frame cols _ => [cols.toFinset]
  | _ => []


/-- The contribution of one file's payload to `total_records`
(lines 342, 362, 369). In the mapping branch the source guards
`len(sub_data) > 0`, which adds the same total as summing the raw
lengths, an empty list adding zero either way. -/
def fileRecords : PyObj → Nat
  | .list xs => xs.length
  | .dict subs =>
    (subs.map fun s =>
      match s.2 with
      | PyObj.list ys => ys.length
      | _ => 0).sum
  | .frame _ rows => rows.length
  | _ => 0

/-- The contribution of one file's payload to `sample_records`
(lines 350, 366, 373): up to two leading records per qualifying
sequence; DataFrame rows become mapping-shaped records
(`head(2).to_dict` with column/value pairing). -/
def fileSamples : PyObj → List PyObj
  | .list (PyObj.dict kvs :: rest) => (PyObj.dict kvs :: rest).take 2
  | .dict subs =>
    subs.flatMap fun s =>
      match s.2 with
      | PyObj.list (PyObj.dict kvs :: rest) => (PyObj.dict kvs :: rest).take 2
      | _ => []
  | .frame cols rows => (rows.take 2).map fun r => PyObj.dict (cols.zip r)
  | _ => []

/-- The contribution of one file's payload to `data_schema`
(lines 353-356): only a list payload whose first element is a mapping
contributes, one `(key, type name)` pair per item of that first record.
The source stores this as a mapping from key to a set of type names
(converted to lists at line 382); here the same information is the set
of pairs. -/
def fileSchema : PyObj → Finset (String × String)
  | .list (PyObj.dict kvs :: _) => (kvs.map fun kv => (kv.1, typeName kv.2)).toFinset
  | _ => ∅

/-- The `record_types` description (lines 343 and 370); only list and
DataFrame payloads receive one. -/
def recordTypeDesc : PyObj → Option String
  | .list xs => some ("list (" ++ toString xs.length ++ " items)")
  | .frame cols rows =>
    some ("dataframe (" ++ toString rows.length ++ "x" ++ toString cols.length ++ ")")
  | _ => Option.none

/-- The per-dataset analysis record (lines 327-334 and 375-378).
`common_keys` is `Option`-valued because the source initializes it to
`None` and only assigns a set inside `if all_keys_sets:`;
`all_unique_keys` is `Option`-valued because the source only creates that
key inside the same guard. -/
structure Analysis where
  file_count : Nat
  total_records : Nat
  record_types : List (String × String)
  common_keys : Option (Finset String)
  all_unique_keys : Option (Finset String)
  sample_records : List PyObj
  data_schema : Finset (String × String)

/-- `set.intersection(*all_keys_sets)` under the `if all_keys_sets:`
guard (lines 376-377): for an empty list the guard is not taken and
`common_keys` keeps its initial `None` (the inner
`if all_keys_sets else set()` arm is unreachable). -/
def interList : List (Finset String) → Option (Finset String)
  | [] => Option.none
  | s :: rest => some (rest.foldl (· ∩ ·) s)

/-- `set.union(*all_keys_sets)` under the same guard (line 378): for an
empty list the `all_unique_keys` key is never created. -/
def unionList : List (Finset String) → Option (Finset String)
  | [] => Option.none
  | s :: rest => some (rest.foldl (· ∪ ·) s)

/-- `all_keys_sets` accumulated over the dataset's files in iteration
order (line 336 and the loop at lines 338-373). -/
def datasetKeySets (files : List (String × PyObj)) : List (Finset String) :=
  files.flatMap fun f => fileKeySets f.2

/-- The analysis record as it stands after the per-file loop and the
`if all_keys_sets:` block, for one dataset's mapping from file name to
payload (lines 327-382). -/
def analyzeDatasetLoop (files : List (String × PyObj)) : Analysis :=
  { file_count := files.length
    total_records := (files.map fun f => fileRecords f.2).sum
    record_types := files.filterMap fun f => (recordTypeDesc f.2).map fun d => (f.1, d)
    common_keys := interList (datasetKeySets files)
    all_unique_keys := unionList (datasetKeySets files)
    sample_records := files.flatMap fun f => fileSamples f.2
    data_schema := files.foldl (fun acc f => acc ∪ fileSchema f.2) ∅ }

/-- The full per-dataset analysis including the summary logging
(lines 386-391): `len(analysis['common_keys'])` at line 390 raises
`TypeError` when `common_keys` is still `None`, so the analysis of a
dataset whose files captured no key set produces no result (`none`
models the uncaught exception). -/
def analyzeDataset (files : List (String × PyObj)) : Option Analysis :=
  let a := analyzeDatasetLoop files
  match a.common_keys with
  | some _ => some a
  | Option.none => Option.none

/-- First-match association-list lookup, modelling Python dict access. -/
def alistLookup {α : Type} : List (String × α) → String → Option α
  | [], _ => Option.none
  | kv :: rest, n => if kv.1 = n then some kv.2 else alistLookup rest n

/-- `[dataset_name] if dataset_name else list(self.loaded_datasets.keys())`
(line 316); Python truthiness makes the empty string select all
datasets, like `None`. -/
def targetNames (loaded : List (String × List (String × PyObj))) (dsName : Option String) :
    List String :=
  match dsName with
  | some n => if n = "" then loaded.map Prod.fst else [n]
  | Option.none => loaded.map Prod.fst

/-- The per-name analysis loop (lines 319-391): a name missing from the
registry is skipped with a warning; an exception raised while analyzing
one dataset propagates, aborting the whole call (`none`). -/
def analyzeNames (loaded : List (String × List (String × PyObj))) :
    List String → Option (List (String × Analysis))
  | [] => some []
  | n :: ns =>
    match alistLookup loaded n with
    | some files =>
      match analyzeDataset files with
      | some a => (analyzeNames loaded ns).map fun rest => (n, a) :: rest
      | Option.none => Option.none
    | Option.none => analyzeNames loaded ns

/-- `analyze_dataset_structure` (lines 302-393): with an empty
loaded-datasets registry it returns `{}` immediately (lines 312-314). -/
def analyze_dataset_structure (loaded : List (String × List (String × PyObj)))
    (dsName : Option String) : Option (List (String × Analysis)) :=
  if loaded.isEmpty then some []
  else analyzeNames loaded (targetNames loaded dsName)

/-! ### General lemmas about folded set intersections and unions -/

theorem mem_foldl_inter {α : Type} [DecidableEq α] (l : List (Finset α)) (s : Finset α)
    (x : α) : x ∈ l.foldl (· ∩ ·) s ↔ x ∈ s ∧ ∀ t ∈ l, x ∈ t := by
  induction l generalizing s with
  | nil => simp
  | cons h t ih =>
    simp [ih, Finset.mem_inter, List.forall_mem_cons, and_assoc]

theorem mem_foldl_union {α : Type} [DecidableEq α] (l : List (Finset α)) (s : Finset α)
    (x : α) : x ∈ l.foldl (· ∪ ·) s ↔ x ∈ s ∨ ∃ t ∈ l, x ∈ t := by
  induction l generalizing s with
  | nil => simp
  | cons h t ih =>
    simp only [List.foldl_cons, ih, Finset.mem_union, List.exists_mem_cons_iff]
    tauto

/-- Membership in the folded intersection `set.intersection(*sets)` of a
non-empty list of key sets. -/
theorem interList_cons_mem (s : Finset String) (rest : List (Finset String)) (x : String) :
    x ∈ rest.foldl (· ∩ ·) s ↔ ∀ t ∈ s :: rest, x ∈ t := by
  simp [mem_foldl_inter, List.forall_mem_cons]

/-- Membership in the folded union `set.union(*sets)` of a non-empty list
of key sets. -/
theorem unionList_cons_mem (s : Finset String) (rest : List (Finset String)) (x : String) :
    x ∈ rest.foldl (· ∪ ·) s ↔ ∃ t ∈ s :: rest, x ∈ t := by
  simp only [mem_foldl_union, List.exists_mem_cons_iff]

/-- The folded intersection only depends on the multiset of key sets. -/
theorem interList_perm {l₁ l₂ : List (Finset String)} (h : l₁.Perm l₂) :
    interList l₁ = interList l₂ := by
  cases l₁ with
  | nil => rw [h.symm.eq_nil]
  | cons a t₁ =>
    cases l₂ with
    | nil => exact (List.cons_ne_nil a t₁ h.eq_nil).elim
    | cons b t₂ =>
      refine congrArg some (Finset.ext fun x => ?_)
      rw [interList_cons_mem, interList_cons_mem]
      exact ⟨fun H t ht => H t (h.mem_iff.mpr ht), fun H t ht => H t (h.mem_iff.mp ht)⟩

/-- The folded union only depends on the multiset of key sets. -/
theorem unionList_perm {l₁ l₂ : List (Finset String)} (h : l₁.Perm l₂) :
    unionList l₁ = unionList l₂ := by
  cases l₁ with
  | nil => rw [h.symm.eq_nil]
  | cons a t₁ =>
    cases l₂ with
    | nil => exact (List.cons_ne_nil a t₁ h.eq_nil).elim
    | cons b t₂ =>
      refine congrArg some (Finset.ext fun x => ?_)
      rw [unionList_cons_mem, unionList_cons_mem]
      exact ⟨fun ⟨t, ht, hx⟩ => ⟨t, h.mem_iff.mp ht, hx⟩,
             fun ⟨t, ht, hx⟩ => ⟨t, h.mem_iff.mpr ht, hx⟩⟩

/-- A left fold of unions over the empty set only depends on the multiset
of sets folded. -/
theorem foldl_union_perm {α : Type} [DecidableEq α] {l₁ l₂ : List (Finset α)}
    (h : l₁.Perm l₂) : l₁.foldl (· ∪ ·) ∅ = l₂.foldl (· ∪ ·) ∅ := by
  refine Finset.ext fun x => ?_
  rw [mem_foldl_union, mem_foldl_union]
  exact ⟨fun H => H.imp id fun ⟨t, ht, hx⟩ => ⟨t, h.mem_iff.mp ht, hx⟩,
         fun H => H.imp id fun ⟨t, ht, hx⟩ => ⟨t, h.mem_iff.mpr ht, hx⟩⟩

/-- The `data_schema` fold, rewritten as a fold of unions over the
per-file schema contributions. -/
theorem schemaFold_eq (files : List (String × PyObj)) :
    files.foldl (fun acc f => acc ∪ fileSchema f.2) ∅
      = (files.map fun f => fileSchema f.2).foldl (· ∪ ·) ∅ := by
  rw [List.foldl_map]

/-! ### Claim theorems -/

/-- C1: a dataset whose loaded files capture no key set (here a single
`.json` file holding a list of integers) does NOT end with empty
`common_keys`/`all_unique_keys`: `common_keys` keeps its initial `None`,
the `all_unique_keys` key is never created, and the subsequent summary
logging raises, so the dataset analysis produces no result at all. -/
theorem analyze_no_key_sets_leaves_none :
    (analyzeDatasetLoop [("records.json", PyObj.list [PyObj.int 7, PyObj.int 8])]).common_keys
        = Option.none ∧
    (analyzeDatasetLoop
        [("records.json", PyObj.list [PyObj.int 7, PyObj.int 8])]).all_unique_keys
        = Option.none ∧
    analyzeDataset [("records.json", PyObj.list [PyObj.int 7, PyObj.int 8])] = Option.none :=
  ⟨rfl, rfl, rfl⟩

/-- C2 counterexample: with lines `{"a":1}`, blank, `{"a":2}`, `{"a":3}`
and `max_records = 2`, the loader does NOT return the two records
`[{"a":1}, {"a":2}]`. -/
theorem jsonl_blank_line_counterexample :
    load_jsonl_file
        (some [JsonlLine.record (PyObj.dict [("a", PyObj.int 1)]), JsonlLine.blank,
               JsonlLine.record (PyObj.dict [("a", PyObj.int 2)]),
               JsonlLine.record (PyObj.dict [("a", PyObj.int 3)])])
        (some 2)
      ≠ some (PyObj.list [PyObj.dict [("a", PyObj.int 1)],
                          PyObj.dict [("a", PyObj.int 2)]]) := by
  intro h
  rw [show load_jsonl_file
        (some [JsonlLine.record (PyObj.dict [("a", PyObj.int 1)]), JsonlLine.blank,
               JsonlLine.record (PyObj.dict [("a", PyObj.int 2)]),
               JsonlLine.record (PyObj.dict [("a", PyObj.int 3)])])
        (some 2)
      = some (PyObj.list [PyObj.dict [("a", PyObj.int 1)]]) from rfl] at h
  simp at h

/-- C2 amended: the same file with `max_records = 2` yields exactly
`[{"a":1}]` — the loop breaks once the 0-based line index reaches
`max_records`, so the blank line at index 1 does consume part of the
2-line budget even though it emits no record. -/
theorem jsonl_blank_line_consumes_budget :
    load_jsonl_file
        (some [JsonlLine.record (PyObj.dict [("a", PyObj.int 1)]), JsonlLine.blank,
               JsonlLine.record (PyObj.dict [("a", PyObj.int 2)]),
               JsonlLine.record (PyObj.dict [("a", PyObj.int 3)])])
        (some 2)
      = some (PyObj.list [PyObj.dict [("a", PyObj.int 1)]]) := rfl

/-- C3 counterexample: a dataset whose walk yields one descriptor and then
fails does NOT keep the truncated prefix — the partially collected list is
discarded. -/
theorem discover_walk_error_counterexample :
    discover_files
        [⟨"train_data", true,
          [⟨"f.json", "p/f.json", 100, ".json", "train_data",
            ⟨Option.none, Option.none, Option.none, Option.none⟩⟩], true⟩]
      ≠ [("train_data",
          [⟨"f.json", "p/f.json", 100, ".json", "train_data",
            ⟨Option.none, Option.none, Option.none, Option.none⟩⟩])] := by
  intro h
  rw [show discover_files
        [⟨"train_data", true,
          [⟨"f.json", "p/f.json", 100, ".json", "train_data",
            ⟨Option.none, Option.none, Option.none, Option.none⟩⟩], true⟩]
      = [("train_data", ([] : List FileInfo))] from rfl] at h
  simp at h

/-- C3 amended: when the walk for one dataset fails partway, that
dataset's descriptor sequence comes back EMPTY (everything found before
the failure is discarded), and every other dataset's discovery result is
exactly what it would be on its own. -/
theorem discover_walk_error_empties_dataset (pre post : List DatasetSource)
    (d : DatasetSource) (h : d.walkError = true) :
    discover_files (pre ++ d :: post)
      = discover_files pre ++ (d.name, []) :: discover_files post := by
  simp [discover_files, discoverDataset, h]

theorem discover_walk_error_empties_dataset_witness :
    (⟨"train_data", true,
      [⟨"f.json", "p/f.json", 100, ".json", "train_data",
        ⟨Option.none, Option.none, Option.none, Option.none⟩⟩], true⟩ :
      DatasetSource).walkError = true ∧
    discover_files
        ([⟨"test_labeled", true, [], false⟩] ++
          (⟨"train_data", true,
            [⟨"f.json", "p/f.json", 100, ".json", "train_data",
              ⟨Option.none, Option.none, Option.none, Option.none⟩⟩], true⟩ :
            DatasetSource) :: [⟨"test_unlabeled", false, [], false⟩])
      = discover_files [⟨"test_labeled", true, [], false⟩] ++
          ("train_data", []) :: discover_files [⟨"test_unlabeled", false, [], false⟩] :=
  ⟨rfl, discover_walk_error_empties_dataset _ _ _ rfl⟩

/-- C4: the pipeline does NOT always run to completion — loading a
dataset whose single successfully loaded `.json` file is a list of
integers (no mapping-shaped first element, hence no captured key set) and
then analyzing it makes `analyze_dataset_structure` raise at the
`len(analysis['common_keys'])` log line; the embedded pipeline yields no
result (`none` models the uncaught `TypeError`). -/
theorem analysis_raises_on_keyless_dataset :
    analyze_dataset_structure
        (load_all_datasets
          [("train_data",
            [⟨"nums.json", "p/nums.json", 120, ".json", "train_data",
              ⟨some (PyObj.list [PyObj.int 1, PyObj.int 2]),
               Option.none, Option.none, Option.none⟩⟩])]
          (some 1000))
        Option.none
      = Option.none := rfl

/-- C5: every file descriptor below 50 bytes is rejected by `load_file`
before any parser runs, whatever its extension and content. -/
theorem small_files_always_skipped (fi : FileInfo) (max_records : Option Nat)
    (h : fi.size_bytes < 50) : load_file fi max_records = (false, Option.none) := by
  unfold load_file
  rw [if_pos h]

theorem small_files_always_skipped_witness :
    (⟨"tiny.json", "p/tiny.json", 10, ".json", "train_data",
      ⟨some (PyObj.list [PyObj.int 1]), Option.none, Option.none, Option.none⟩⟩ :
      FileInfo).size_bytes < 50 ∧
    load_file
        ⟨"tiny.json", "p/tiny.json", 10, ".json", "train_data",
          ⟨some (PyObj.list [PyObj.int 1]), Option.none, Option.none, Option.none⟩⟩
        (some 1000)
      = (false, Option.none) :=
  ⟨by decide, small_files_always_skipped _ _ (by decide)⟩

/-- C6: for a `.json` file parsing to a list, `load_json_file` keeps
exactly the first `max_records` elements; for one parsing to an
object/mapping it returns the value unchanged, truncation never
applying. -/
theorem json_list_truncation_object_unchanged :
    (∀ (xs : List PyObj) (n : Nat),
        load_json_file (some (PyObj.list xs)) (some n)
          = some (PyObj.list (xs.take n))) ∧
    (∀ (kvs : List (String × PyObj)) (max_records : Option Nat),
        load_json_file (some (PyObj.dict kvs)) max_records
          = some (PyObj.dict kvs)) :=
  ⟨fun _ _ => rfl, fun _ max_records => by cases max_records <;> rfl⟩

/-- C10: with an empty loaded-datasets registry, the analysis returns the
empty mapping for every `dataset_name` argument, including none. -/
theorem analyze_empty_registry_returns_empty (dsName : Option String) :
    analyze_dataset_structure [] dsName = some [] := rfl

/-- C7: once a ZIP archive opens, `load_file` reports success and returns
the member mapping, which holds an entry exactly for each non-directory
member whose per-member load produced a value — a failing member is
simply absent and aborts nothing, and members of other extensions never
produce a value. -/
theorem zip_member_isolation (fi : FileInfo) (ms : List ZipMember)
    (max_records : Option Nat) (hsize : 50 ≤ fi.size_bytes)
    (hext : fi.extension = ".zip") (hopen : fi.data.zipOpen = some ms) :
    load_file fi max_records
        = (true, some (PyObj.dict (zipContents ms max_records))) ∧
    ∀ n v, (n, v) ∈ zipContents ms max_records ↔
        ∃ m ∈ ms, m.name = n ∧ loadZipMember m max_records = some v := by
  constructor
  · unfold load_file
    rw [if_neg (Nat.not_lt.mpr hsize), hext,
        if_neg (by decide : ¬ ((".zip" : String) = ".json")),
        if_neg (by decide : ¬ ((".zip" : String) = ".jsonl")),
        if_neg (by decide : ¬ ((".zip" : String) = ".csv")),
        if_pos rfl, hopen]
    rfl
  · intro n v
    constructor
    · intro hmem
      rcases List.mem_filterMap.mp hmem with ⟨m, hm, hf⟩
      rcases Option.map_eq_some'.mp hf with ⟨w, hw, hpair⟩
      injection hpair with h1 h2
      exact ⟨m, hm, h1, h2 ▸ hw⟩
    · rintro ⟨m, hm, h1, h2⟩
      refine List.mem_filterMap.mpr ⟨m, hm, ?_⟩
      rw [h2]
      simp [h1]

theorem zip_member_isolation_witness :
    50 ≤ (⟨"arch.zip", "p/arch.zip", 200, ".zip", "train_data",
          ⟨Option.none, Option.none, Option.none,
            some [⟨"good.jsonl",
                    ZipContent.jsonl [JsonlLine.record (PyObj.dict [("a", PyObj.int 1)])]⟩,
                  ⟨"bad.json", ZipContent.json Option.none⟩]⟩⟩ : FileInfo).size_bytes ∧
    (⟨"arch.zip", "p/arch.zip", 200, ".zip", "train_data",
      ⟨Option.none, Option.none, Option.none,
        some [⟨"good.jsonl",
                ZipContent.jsonl [JsonlLine.record (PyObj.dict [("a", PyObj.int 1)])]⟩,
              ⟨"bad.json", ZipContent.json Option.none⟩]⟩⟩ : FileInfo).extension = ".zip" ∧
    (⟨"arch.zip", "p/arch.zip", 200, ".zip", "train_data",
      ⟨Option.none, Option.none, Option.none,
        some [⟨"good.jsonl",
                ZipContent.jsonl [JsonlLine.record (PyObj.dict [("a", PyObj.int 1)])]⟩,
              ⟨"bad.json", ZipContent.json Option.none⟩]⟩⟩ : FileInfo).data.zipOpen
      = some [⟨"good.jsonl",
                ZipContent.jsonl [JsonlLine.record (PyObj.dict [("a", PyObj.int 1)])]⟩,
              ⟨"bad.json", ZipContent.json Option.none⟩] ∧
    (load_file
        ⟨"arch.zip", "p/arch.zip", 200, ".zip", "train_data",
          ⟨Option.none, Option.none, Option.none,
            some [⟨"good.jsonl",
                    ZipContent.jsonl [JsonlLine.record (PyObj.dict [("a", PyObj.int 1)])]⟩,
                  ⟨"bad.json", ZipContent.json Option.none⟩]⟩⟩
        (some 3)
      = (true, some (PyObj.dict (zipContents
          [⟨"good.jsonl",
             ZipContent.jsonl [JsonlLine.record (PyObj.dict [("a", PyObj.int 1)])]⟩,
           ⟨"bad.json", ZipContent.json Option.none⟩] (some 3)))) ∧
     ∀ n v, (n, v) ∈ zipContents
          [⟨"good.jsonl",
             ZipContent.jsonl [JsonlLine.record (PyObj.dict [("a", PyObj.int 1)])]⟩,
           ⟨"bad.json", ZipContent.json Option.none⟩] (some 3) ↔
        ∃ m ∈ [⟨"good.jsonl",
                 ZipContent.jsonl [JsonlLine.record (PyObj.dict [("a", PyObj.int 1)])]⟩,
               ⟨"bad.json", ZipContent.json Option.none⟩],
          ZipMember.name m = n ∧ loadZipMember m (some 3) = some v) :=
  ⟨by decide, rfl, rfl, zip_member_isolation _ _ _ (by decide) rfl rfl⟩

/-- C8: whenever the analysis of a dataset assigns key sets at all, the
common keys (folded intersection) are contained in the union of the same
captured key sets. -/
theorem common_keys_subset_all_unique_keys (files : List (String × PyObj))
    (c u : Finset String)
    (hc : (analyzeDatasetLoop files).common_keys = some c)
    (hu : (analyzeDatasetLoop files).all_unique_keys = some u) :
    c ⊆ u := by
  have hc' : interList (datasetKeySets files) = some c := hc
  have hu' : unionList (datasetKeySets files) = some u := hu
  cases hK : datasetKeySets files with
  | nil =>
    rw [hK] at hc'
    exact absurd hc' (by simp [interList])
  | cons s rest =>
    rw [hK] at hc' hu'
    simp only [interList, Option.some.injEq] at hc'
    simp only [unionList, Option.some.injEq] at hu'
    intro x hx
    rw [← hc'] at hx
    have hall := (interList_cons_mem s rest x).mp hx
    rw [← hu']
    exact (unionList_cons_mem s rest x).mpr
      ⟨s, List.mem_cons_self s rest, hall s (List.mem_cons_self s rest)⟩

theorem common_keys_subset_all_unique_keys_witness :
    (analyzeDatasetLoop
        [("A.json", PyObj.list [PyObj.dict [("x", PyObj.int 1)]]),
         ("B.json", PyObj.list [PyObj.dict [("x", PyObj.int 2),
                                            ("y", PyObj.int 3)]])]).common_keys
      = some {"x"} ∧
    (analyzeDatasetLoop
        [("A.json", PyObj.list [PyObj.dict [("x", PyObj.int 1)]]),
         ("B.json", PyObj.list [PyObj.dict [("x", PyObj.int 2),
                                            ("y", PyObj.int 3)]])]).all_unique_keys
      = some {"x", "y"} ∧
    ({"x"} : Finset String) ⊆ {"x", "y"} :=
  ⟨by decide, by decide,
   common_keys_subset_all_unique_keys
     [("A.json", PyObj.list [PyObj.dict [("x", PyObj.int 1)]]),
      ("B.json", PyObj.list [PyObj.dict [("x", PyObj.int 2), ("y", PyObj.int 3)]])]
     {"x"} {"x", "y"} (by decide) (by decide)⟩

/-- C9: permuting the file iteration order of a dataset changes neither
`common_keys` nor `all_unique_keys` nor `data_schema` (the schema viewed
as the set of observed (field, type-tag) pairs). -/
theorem analysis_order_invariant (files₁ files₂ : List (String × PyObj))
    (h : files₁.Perm files₂) :
    (analyzeDatasetLoop files₁).common_keys
        = (analyzeDatasetLoop files₂).common_keys ∧
    (analyzeDatasetLoop files₁).all_unique_keys
        = (analyzeDatasetLoop files₂).all_unique_keys ∧
    (analyzeDatasetLoop files₁).data_schema
        = (analyzeDatasetLoop files₂).data_schema := by
  have hK0 : (files₁.flatMap fun f => fileKeySets f.2).Perm
      (files₂.flatMap fun f => fileKeySets f.2) :=
    h.flatMap_right fun (f : String × PyObj) => fileKeySets f.2
  have hK : (datasetKeySets files₁).Perm (datasetKeySets files₂) := hK0
  refine ⟨?_, ?_, ?_⟩
  · show interList (datasetKeySets files₁) = interList (datasetKeySets files₂)
    exact interList_perm hK
  · show unionList (datasetKeySets files₁) = unionList (datasetKeySets files₂)
    exact unionList_perm hK
  · show files₁.foldl (fun acc f => acc ∪ fileSchema f.2) ∅
        = files₂.foldl (fun acc f => acc ∪ fileSchema f.2) ∅
    rw [schemaFold_eq, schemaFold_eq]
    exact foldl_union_perm (h.map fun f => fileSchema f.2)

theorem analysis_order_invariant_witness :
    ([("A.jsonl", PyObj.list [PyObj.dict [("x", PyObj.int 1), ("y", PyObj.int 2)]]),
      ("B.csv", PyObj.frame ["x", "z"] [[PyObj.int 3, PyObj.int 4]])] :
        List (String × PyObj)).Perm
      [("B.csv", PyObj.frame ["x", "z"] [[PyObj.int 3, PyObj.int 4]]),
       ("A.jsonl", PyObj.list [PyObj.dict [("x", PyObj.int 1), ("y", PyObj.int 2)]])] ∧
    ((analyzeDatasetLoop
        [("A.jsonl", PyObj.list [PyObj.dict [("x", PyObj.int 1), ("y", PyObj.int 2)]]),
         ("B.csv", PyObj.frame ["x", "z"] [[PyObj.int 3, PyObj.int 4]])]).common_keys
       = (analyzeDatasetLoop
           [("B.csv", PyObj.frame ["x", "z"] [[PyObj.int 3, PyObj.int 4]]),
            ("A.jsonl",
             PyObj.list [PyObj.dict [("x", PyObj.int 1), ("y", PyObj.int 2)]])]).common_keys ∧
     (analyzeDatasetLoop
        [("A.jsonl", PyObj.list [PyObj.dict [("x", PyObj.int 1), ("y", PyObj.int 2)]]),
         ("B.csv", PyObj.frame ["x", "z"] [[PyObj.int 3, PyObj.int 4]])]).all_unique_keys
       = (analyzeDatasetLoop
           [("B.csv", PyObj.frame ["x", "z"] [[PyObj.int 3, PyObj.int 4]]),
            ("A.jsonl",
             PyObj.list [PyObj.dict [("x", PyObj.int 1),
                                     ("y", PyObj.int 2)]])]).all_unique_keys ∧
     (analyzeDatasetLoop
        [("A.jsonl", PyObj.list [PyObj.dict [("x", PyObj.int 1), ("y", PyObj.int 2)]]),
         ("B.csv", PyObj.frame ["x", "z"] [[PyObj.int 3, PyObj.int 4]])]).data_schema
       = (analyzeDatasetLoop
           [("B.csv", PyObj.frame ["x", "z"] [[PyObj.int 3, PyObj.int 4]]),
            ("A.jsonl",
             PyObj.list [PyObj.dict [("x", PyObj.int 1),
                                     ("y", PyObj.int 2)]])]).data_schema) :=
  ⟨List.Perm.swap _ _ [], analysis_order_invariant _ _ (List.Perm.swap _ _ [])⟩
